import Mathlib

/-!
Verification development for the PqcResearchVisualizer report tool.

The tool's parsing core is embedded shallowly:
* the magnitude parser `parse_value` (strings like "1,234.5 μs" to canonical
  microseconds / bytes),
* the pipe-table extractor and benchmark-log reader `parseBenchmarkLog`,
* the artifact-size reader `parseArtifactLine`,
* the orchestrator's chart schedule `mainCharts`.

Python floats are modelled as rationals (`ℚ`); every magnitude the tool
manipulates is an exact decimal, so no rounding behaviour is lost.  Code
that can raise a Python exception is modelled with `Option`/`Except`, the
`none`/`.error` value standing for the exception.  Regular-expression
character classes `\d` and `\s` are modelled over their ASCII members,
which covers the log format the tool parses.
-/

set_option maxRecDepth 8000

/-- ASCII model of Python's whitespace class `\s` / `str.strip()`. -/
def pyIsSpace (c : Char) : Bool :=
  c = ' ' || c = '\t' || c = '\n' || c = '\r' || c = '\x0b' || c = '\x0c'

/-- Characters matched by the regex class `[\d\.]` (group 1 of the
magnitude regex). -/
def isNumChar (c : Char) : Bool :=
  c.isDigit || c = '.'

/-- Characters matched by the regex class `[a-zA-Zμ]` (group 2 of the
magnitude regex). -/
def isUnitChar (c : Char) : Bool :=
  (Char.ofNat 97 ≤ c && c ≤ Char.ofNat 122) ||
  (Char.ofNat 65 ≤ c && c ≤ Char.ofNat 90) ||
  c = 'μ'

/-- Value of a digit string read in base 10 (the digits of `int(...)` /
the integer parts of `float(...)`). -/
def digitsToNat (cs : List Char) : ℕ :=
  cs.foldl (fun a c => 10 * a + (c.toNat - 48)) 0

/-- Strip characters satisfying `p` from both ends of a list, as Python's
`str.strip` family does. -/
def stripWith (p : Char → Bool) (cs : List Char) : List Char :=
  ((cs.dropWhile p).reverse.dropWhile p).reverse

/-- Python `str.strip()` on the character-list level. -/
def pyStripL (cs : List Char) : List Char :=
  stripWith pyIsSpace cs

/-- Python `str.strip()`. -/
def pyStrip (s : String) : String :=
  String.mk (pyStripL s.data)

/-- Python `str.split(sep)` for a one-character separator: `""` splits to
`[""]`, and every separator occurrence produces a boundary. -/
def splitOnChar (sep : Char) : List Char → List (List Char)
  | [] => [[]]
  | c :: t =>
    if c = sep then [] :: splitOnChar sep t
    else
      match splitOnChar sep t with
      | [] => [[c]]
      | h :: r => (c :: h) :: r

/-- Python's substring test `needle in hay`. -/
def subStr (nd : List Char) : List Char → Bool
  | [] => nd.isEmpty
  | c :: t => nd.isPrefixOf (c :: t) || subStr nd t

/-- `val.replace(',', '')`: drop every comma. -/
def stripCommas (s : String) : String :=
  String.mk (s.data.filter (fun c => !(c = ',')))

/-- `re.match(r'([\d\.]+)\s*([a-zA-Zμ]+)', val)`: an anchored match of a
nonempty digits-and-dots prefix, optional whitespace and a nonempty unit
token.  The character classes are disjoint, so the greedy match is the
maximal run for each group and no backtracking can succeed where this
fails.  Returns `(group 1, group 2)` on success. -/
def reMatchNumUnit (s : String) : Option (String × String) :=
  let cs := s.data
  let d := cs.takeWhile isNumChar
  if d.isEmpty then none
  else
    let r1 := (cs.dropWhile isNumChar).dropWhile pyIsSpace
    let u := r1.takeWhile isUnitChar
    if u.isEmpty then none else some (String.mk d, String.mk u)

/-- Python `float(...)` restricted to strings of digits and dots, which is
the only shape the magnitude regex's group 1 can produce.  `float` accepts
such a string exactly when it has at most one dot and at least one digit;
otherwise it raises `ValueError`, modelled as `none`. -/
def pyFloat (s : String) : Option ℚ :=
  let cs := s.data
  if cs.all isNumChar && cs.count '.' ≤ 1 && cs.any (fun c => c.isDigit) then
    let ip := cs.takeWhile (fun c => c.isDigit)
    let rest := cs.dropWhile (fun c => c.isDigit)
    match rest with
    | [] => some (digitsToNat ip)
    | _ :: fp => some ((digitsToNat ip : ℚ) + (digitsToNat fp : ℚ) / (10 : ℚ) ^ fp.length)
  else none

/-- The magnitude parser `parse_value` from `parse_benchmark_log`.
Empty or `"-"` cells are 0.0; commas are stripped; a failed regex match is
0.0; a successful match converts by unit, with unrecognised units passed
through as the bare number.  `none` models the `ValueError` that
`float(...)` raises on a malformed numeric group. -/
def parse_value (val : String) : Option ℚ :=
  if val = "" || val = "-" then some 0
  else
    match reMatchNumUnit (stripCommas val) with
    | none => some 0
    | some (ds, us) =>
      match pyFloat ds with
      | none => none
      | some num =>
        if us = "ns" then some (num / 1000)
        else if us = "μs" || us = "us" then some num
        else if us = "ms" then some (num * 1000)
        else if us = "s" then some (num * 1000000)
        else if us = "B" then some num
        else if us = "KB" then some (num * 1024)
        else if us = "MB" then some (num * 1024 * 1024)
        else some num

/-- Spec-side unit table, written from the specification's words:
time to microseconds (`ns`/1000, `μs`|`us` as-is, `ms`×1000,
`s`×1,000,000), memory to bytes (`B` as-is, `KB`×1024, `MB`×1024×1024). -/
def specFactor (u : String) : ℚ :=
  if u = "ns" then 1 / 1000
  else if u = "μs" || u = "us" then 1
  else if u = "ms" then 1000
  else if u = "s" then 1000000
  else if u = "B" then 1
  else if u = "KB" then 1024
  else if u = "MB" then 1024 * 1024
  else 1

/-- The units with an explicit conversion case in the source. -/
def knownUnits : List String :=
  ["ns", "μs", "us", "ms", "s", "B", "KB", "MB"]

/-! ## Table extractor and benchmark log reader -/

/-- Whether the header regex `\|\s*Method\s*\|.*` matches at this position:
a pipe, optional whitespace, the literal `Method`, optional whitespace and a
pipe (the trailing `.*` always matches).  The classes are disjoint from the
literals, so no backtracking can succeed where this fails. -/
def matchesHeaderAt (cs : List Char) : Bool :=
  match cs with
  | '|' :: rest =>
    let r1 := rest.dropWhile pyIsSpace
    "Method".data.isPrefixOf r1 &&
      (match (r1.drop 6).dropWhile pyIsSpace with
       | '|' :: _ => true
       | _ => false)
  | _ => false

/-- Scan for the first position where the header regex matches
(`re.search`), returning the text from that position on. -/
def findHeaderAux : List Char → Option (List Char)
  | [] => none
  | c :: t => if matchesHeaderAt (c :: t) then some (c :: t) else findHeaderAux t

/-- `re.search(r'\|\s*Method\s*\|.*', content)` followed by
`content[match.start():]`. -/
def findHeaderTail (content : String) : Option (List Char) :=
  findHeaderAux content.data

/-- `content[match.start():].split('\n')`. -/
def linesOf (cs : List Char) : List String :=
  (splitOnChar '\n' cs).map String.mk

/-- The row-collection loop of `parse_benchmark_log`: blank lines are
skipped, pipe-starting lines are kept unless they contain `---`, and the
first other line stops the loop once at least one row has been collected
(the `capture` flag in the source is never cleared, so it is always true). -/
def collectTableLines : List String → List String → List String
  | [], acc => acc.reverse
  | l :: ls, acc =>
    let s := pyStrip l
    if s = "" then collectTableLines ls acc
    else if s.data.head? = some '|' then
      if subStr "---".data s.data then collectTableLines ls acc
      else collectTableLines ls (s :: acc)
    else if acc.isEmpty then collectTableLines ls acc
    else acc.reverse

/-- `line.strip('|')`: drop every leading and trailing pipe. -/
def stripPipes (cs : List Char) : List Char :=
  stripWith (fun c => c = '|') cs

/-- `[v.strip() for v in line.strip('|').split('|')]`. -/
def rowCells (l : String) : List String :=
  (splitOnChar '|' (stripPipes l.data)).map (fun cs => String.mk (pyStripL cs))

/-- One insertion into a Python dict: later values for an existing key
overwrite in place, new keys append in insertion order. -/
def dictInsert (d : List (String × String)) (k v : String) : List (String × String) :=
  if d.any (fun p => p.1 = k) then d.map (fun p => if p.1 = k then (k, v) else p)
  else d ++ [(k, v)]

/-- `dict(zip(headers, values))`. -/
def dictZip (ks vs : List String) : List (String × String) :=
  (List.zip ks vs).foldl (fun d kv => dictInsert d kv.1 kv.2) []

/-- Read a cell of a row dict (the key is always present in rows built by
`dictZip` from a full-length values list). -/
def cellOf (row : List (String × String)) (k : String) : String :=
  (List.lookup k row).getD ""

/-- Rows accepted from the lines after the header: split into cells, keep
exactly the rows whose field count equals the header's. -/
def tableData (headers : List String) (rows : List String) : List (List (String × String)) :=
  rows.filterMap (fun l =>
    let vs := rowCells l
    if vs.length = headers.length then some (dictZip headers vs) else none)

/-- `x.split('.')[-1].replace("'", "")`: text after the last dot, with
apostrophes removed. -/
def cleanMethod (x : String) : String :=
  String.mk (((splitOnChar '.' x.data).getLastD []).filter (fun c => !(c = Char.ofNat 39)))

/-- `x.rsplit(' ', 1)` when the string contains a space: the text before
the last space and the text after it.  `none` when there is no space (the
Python list then has a single element and index `[1]` raises). -/
def rsplitLast (cs : List Char) : Option (List Char × List Char) :=
  if cs.contains ' ' then
    let r := cs.reverse
    some (((r.dropWhile (fun c => c != ' ')).drop 1).reverse,
          (r.takeWhile (fun c => c != ' ')).reverse)
  else none

/-- One row of the structured benchmark record set: the raw cells, the raw
and cleaned method label, the derived algorithm/operation names, and the
canonical magnitudes (`none` when the source table lacks the column, in
which case the DataFrame simply has no such column). -/
structure BenchRecord where
  cells : List (String × String)
  rawMethod : String
  method : String
  algorithm : String
  operation : String
  mean_us : Option ℚ
  alloc_B : Option ℚ
deriving DecidableEq, Repr

/-- Build one record from an accepted row, as the column assignments of
`parse_benchmark_log` do.  Only evaluated after the reader has checked
that every magnitude cell parses and every cleaned label contains a
space, so the `getD`/`elim` defaults are never the value used. -/
def mkRecord (hasMean hasAlloc : Bool) (row : List (String × String)) : BenchRecord :=
  let raw := cellOf row "Method"
  let m := cleanMethod raw
  { cells := row
    rawMethod := raw
    method := m
    algorithm := (rsplitLast m.data).elim m (fun p => String.mk p.1)
    operation := (rsplitLast m.data).elim "" (fun p => String.mk p.2)
    mean_us := if hasMean then some ((parse_value (cellOf row "Mean")).getD 0) else none
    alloc_B := if hasAlloc then some ((parse_value (cellOf row "Allocated")).getD 0) else none }

/-- The pandas column phase of `parse_benchmark_log`: the `apply` calls
run column-by-column (all rows of one column before the next column), so
a `ValueError` raised while parsing the `Mean` column precedes one from
`Allocated`, which precedes the `KeyError` from reading a `Method` column
that an empty DataFrame does not have, which precedes the `IndexError`
from `rsplit(' ', 1)[1]` on a label with no space.  On success every row
becomes the record with cleaned method, split algorithm/operation and
canonical magnitudes. -/
def parseRows (headers : List String) (data : List (List (String × String))) :
    Except String (List BenchRecord) :=
  if (!data.isEmpty && headers.contains "Mean") &&
      data.any (fun r => (parse_value (cellOf r "Mean")).isNone) then
    Except.error "ValueError: could not convert string to float"
  else if (!data.isEmpty && headers.contains "Allocated") &&
      data.any (fun r => (parse_value (cellOf r "Allocated")).isNone) then
    Except.error "ValueError: could not convert string to float"
  else if data.isEmpty || !headers.contains "Method" then
    Except.error "KeyError: Method"
  else if data.any (fun r => !(cleanMethod (cellOf r "Method")).data.contains ' ') then
    Except.error "IndexError: list index out of range"
  else
    Except.ok (data.map (mkRecord (!data.isEmpty && headers.contains "Mean")
                                  (!data.isEmpty && headers.contains "Allocated")))

/-- The benchmark log reader `parse_benchmark_log`, from the file content
on (the missing-file warning path is outside the text-parsing model):
an absent header pattern returns the empty record set; an empty collected
table raises `IndexError` at `table_lines[0]`; otherwise the first
collected line is the header and the pandas phase runs on the accepted
rows. -/
def parseBenchmarkLog (content : String) : Except String (List BenchRecord) :=
  match findHeaderTail content with
  | none => Except.ok []
  | some tail =>
    match collectTableLines (linesOf tail) [] with
    | [] => Except.error "IndexError: list index out of range"
    | hl :: rest => parseRows (rowCells hl) (tableData (rowCells hl) rest)

/-- The accepted data rows of the embedded table (everything
`parse_benchmark_log` does before the pandas column phase): empty when no
header is found, when no line is collected, or when every collected data
row is dropped for a field-count mismatch. -/
def benchTableData (content : String) : List (List (String × String)) :=
  match findHeaderTail content with
  | none => []
  | some tail =>
    match collectTableLines (linesOf tail) [] with
    | [] => []
    | hl :: rest => tableData (rowCells hl) rest

/-! ## Artifact size reader -/

/-- One artifact record: algorithm name, normalized artifact type, size
in bytes. -/
structure ArtRecord where
  algorithm : String
  type : String
  size : ℕ
deriving DecidableEq, Repr

/-- Fuel-indexed worker for `re.sub(r'\[.*?\]\s*', '', line)`.  At the
first `[` that has a later `]` the non-greedy match removes everything up
to the first such `]` plus the following whitespace and scanning resumes
after it; a `[` with no later `]` matches nowhere (and then no later `[`
can match either).  Each removal consumes at least one character, so
`cs.length` fuel always suffices. -/
def removeTagsFuel : ℕ → List Char → List Char
  | 0, cs => cs
  | _ + 1, [] => []
  | f + 1, c :: rest =>
    if c = '[' && rest.contains ']' then
      removeTagsFuel f (((rest.dropWhile (fun x => x != ']')).drop 1).dropWhile pyIsSpace)
    else c :: removeTagsFuel f rest

/-- `re.sub(r'\[.*?\]\s*', '', line)`: remove every bracket-delimited tag
segment together with the whitespace that follows it. -/
def removeTags (cs : List Char) : List Char :=
  removeTagsFuel cs.length cs

/-- `re.search(r'(\d+)', v)`: the first maximal run of digits, if any. -/
def firstDigitRun (cs : List Char) : Option (List Char) :=
  let r := cs.dropWhile (fun c => !c.isDigit)
  if r.isEmpty then none else some (r.takeWhile (fun c => c.isDigit))

/-- The type-label normalization chain of `parse_artifact_sizes`:
case-sensitive substring tests, in source order. -/
def normType (t : String) : String :=
  if subStr "Pub".data t.data then "Public Key"
  else if subStr "Priv".data t.data then "Private Key"
  else if subStr "Sig".data t.data then "Signature"
  else if subStr "Cipher".data t.data then "Ciphertext"
  else t

/-- One pipe segment after the algorithm name: skipped without a colon;
with exactly one colon, `k, v = p.split(':')` binds label and value and a
record is emitted when the value holds a digit run; with two or more
colons the unpacking raises `ValueError`. -/
def processSegment (algo : String) (p : String) : Except String (List ArtRecord) :=
  if !p.data.contains ':' then Except.ok []
  else
    match splitOnChar ':' p.data with
    | [k, v] =>
      match firstDigitRun v with
      | none => Except.ok []
      | some ds =>
        Except.ok [{ algorithm := algo
                     type := normType (pyStrip (String.mk k))
                     size := digitsToNat ds }]
    | _ => Except.error "ValueError: too many values to unpack"

/-- Process the segments of one line left to right, stopping at the first
segment whose unpacking raises. -/
def segsJoin (algo : String) : List String → Except String (List ArtRecord)
  | [] => Except.ok []
  | p :: ps =>
    match processSegment algo p with
    | Except.error e => Except.error e
    | Except.ok rs =>
      match segsJoin algo ps with
      | Except.error e => Except.error e
      | Except.ok rest => Except.ok (rs ++ rest)

/-- The per-line body of `parse_artifact_sizes` (lines are modelled
without their trailing newline): blank or dash-prefixed lines yield
nothing; otherwise bracketed tags are removed, the remainder is split on
pipes, the first trimmed segment is the algorithm name and the rest are
processed as `label: value` segments. -/
def parseArtifactLine (line : String) : Except String (List ArtRecord) :=
  if pyStrip line = "" || line.data.head? = some '-' then Except.ok []
  else
    let clean := pyStrip (String.mk (removeTags line.data))
    let parts := (splitOnChar '|' clean.data).map String.mk
    let algo := pyStrip (parts.headD "")
    segsJoin algo parts.tail

/-- Whole-file artifact reader: the records of every line, in order,
stopping at the first line that raises. -/
def parse_artifact_sizes : List String → Except String (List ArtRecord)
  | [] => Except.ok []
  | l :: ls =>
    match parseArtifactLine l with
    | Except.error e => Except.error e
    | Except.ok rs =>
      match parse_artifact_sizes ls with
      | Except.error e => Except.error e
      | Except.ok rest => Except.ok (rs ++ rest)

/-! ## Orchestrator -/

/-- One `plot_bar` invocation as `main` issues it: the output file, the
record set handed to the renderer (benchmark or artifact) and the two
flags.  The rendering itself (matplotlib/seaborn) is opaque plumbing and
is not modelled. -/
structure ChartCall where
  filename : String
  benchData : List BenchRecord
  artData : List ArtRecord
  logScale : Bool
  showMtu : Bool
deriving DecidableEq, Repr

/-- The error message `main` prints before aborting. -/
def mainAbortMsg : String :=
  "Error: Could not parse benchmark logs. Check file paths."

/-- The run of `main` after parsing, given the three record sets: the
chart calls issued in order, paired with the message that ended the run
early, if any.  With either benchmark set empty, `main` prints its error
and returns with no chart.  Otherwise the KEM time, KEM memory and
signature time charts are issued; then `df_sig[df_sig['Allocated_B'] > 10]`
is evaluated — when the signature table has no `Allocated` column the
reader created no `Allocated_B` column either (its records carry no
allocation value; `mkRecord` sets this uniformly per table), so the
lookup raises `KeyError` and the run ends with only those three charts
written (partial output).  Otherwise the filtered signature memory chart
follows, then the artifact chart only when artifact data is present. -/
def mainCharts (dfKem dfSig : List BenchRecord) (dfArt : List ArtRecord) :
    List ChartCall × Option String :=
  if dfKem.isEmpty || dfSig.isEmpty then ([], some mainAbortMsg)
  else
    let pre : List ChartCall :=
      [ { filename := "kem_execution_time.png", benchData := dfKem, artData := [],
          logScale := true, showMtu := false },
        { filename := "kem_memory.png", benchData := dfKem, artData := [],
          logScale := false, showMtu := false },
        { filename := "sig_execution_time.png", benchData := dfSig, artData := [],
          logScale := true, showMtu := false } ]
    if dfSig.any (fun r => r.alloc_B.isNone) then
      (pre, some "KeyError: Allocated_B")
    else
      (pre ++
        [ { filename := "sig_memory.png",
            benchData := dfSig.filter (fun r => (10 : ℚ) < r.alloc_B.getD 0),
            artData := [], logScale := false, showMtu := false } ] ++
        (if dfArt.isEmpty then [] else
          [ { filename := "artifact_sizes.png", benchData := [], artData := dfArt,
              logScale := true, showMtu := true } ]), none)

/-! ## Magnitude parser lemmas -/

/-- A successful regex match forces `parse_value` into its conversion
branch (the empty/dash guard cannot have fired, since neither matches). -/
theorem parse_value_match (s ds us : String)
    (h : reMatchNumUnit (stripCommas s) = some (ds, us)) :
    parse_value s =
      match pyFloat ds with
      | none => none
      | some num =>
        if us = "ns" then some (num / 1000)
        else if us = "μs" || us = "us" then some num
        else if us = "ms" then some (num * 1000)
        else if us = "s" then some (num * 1000000)
        else if us = "B" then some num
        else if us = "KB" then some (num * 1024)
        else if us = "MB" then some (num * 1024 * 1024)
        else some num := by
  have h1 : s ≠ "" := by
    rintro rfl
    rw [show reMatchNumUnit (stripCommas "") = none from rfl] at h
    exact Option.noConfusion h
  have h2 : s ≠ "-" := by
    rintro rfl
    rw [show reMatchNumUnit (stripCommas "-") = none from rfl] at h
    exact Option.noConfusion h
  rw [parse_value, if_neg (by simp [h1, h2]), h]

/-- C1: every accepted number+unit string parses to the number converted
to canonical units — time to microseconds (`ns`/1000, `μs`/`us` as-is,
`ms`×1000, `s`×1,000,000), memory to bytes (`B` as-is, `KB`×1024,
`MB`×1024×1024) — commas having been stripped before matching, and the
empty string and a lone dash yield 0.0; in particular "1,234.5 μs" ↦
1234.5, "500 ns" ↦ 0.5, "2 ms" ↦ 2000.0, "1 KB" ↦ 1024.0, "-" ↦ 0.0,
"" ↦ 0.0. -/
theorem parse_value_canonical_units :
    (∀ s ds us n, reMatchNumUnit (stripCommas s) = some (ds, us) →
      pyFloat ds = some n → us ∈ knownUnits →
      parse_value s = some (n * specFactor us))
    ∧ parse_value "" = some 0
    ∧ parse_value "-" = some 0
    ∧ parse_value "1,234.5 μs" = some (2469 / 2)
    ∧ parse_value "500 ns" = some (1 / 2)
    ∧ parse_value "2 ms" = some 2000
    ∧ parse_value "1 KB" = some 1024 := by
  refine ⟨?_, rfl, rfl, ?_, ?_, ?_, ?_⟩
  · intro s ds us n hm hf hu
    rw [parse_value_match s ds us hm, hf]
    fin_cases hu
    · show some (n / 1000) = some (n * specFactor "ns")
      rw [show specFactor "ns" = 1 / 1000 from rfl, mul_one_div]
    · show some n = some (n * specFactor "μs")
      rw [show specFactor "μs" = 1 from rfl, mul_one]
    · show some n = some (n * specFactor "us")
      rw [show specFactor "us" = 1 from rfl, mul_one]
    · show some (n * 1000) = some (n * specFactor "ms")
      rw [show specFactor "ms" = 1000 from rfl]
    · show some (n * 1000000) = some (n * specFactor "s")
      rw [show specFactor "s" = 1000000 from rfl]
    · show some n = some (n * specFactor "B")
      rw [show specFactor "B" = 1 from rfl, mul_one]
    · show some (n * 1024) = some (n * specFactor "KB")
      rw [show specFactor "KB" = 1024 from rfl]
    · show some (n * 1024 * 1024) = some (n * specFactor "MB")
      rw [show specFactor "MB" = 1024 * 1024 from rfl, mul_assoc]
  · rw [show parse_value "1,234.5 μs" =
        some ((1234 : ℚ) + (5 : ℚ) / (10 : ℚ) ^ (1 : ℕ)) from rfl]
    norm_num
  · rw [show parse_value "500 ns" = some ((500 : ℚ) / 1000) from rfl]
    norm_num
  · rw [show parse_value "2 ms" = some ((2 : ℚ) * 1000) from rfl]
    norm_num
  · rw [show parse_value "1 KB" = some ((1 : ℚ) * 1024) from rfl]
    norm_num

/-- Witness for `parse_value_canonical_units` at "3 KB". -/
theorem parse_value_canonical_units_witness :
    parse_value "3 KB" = some ((3 : ℕ) * specFactor "KB") :=
  parse_value_canonical_units.1 "3 KB" "3" "KB" ((3 : ℕ) : ℚ) rfl rfl (by decide)

/-- C2 counterexample: on "1.2.3 ms" the magnitude regex matches (group 1
is "1.2.3"), but `float("1.2.3")` raises `ValueError`, so the parser is
not exception-free: the claimed totality fails at this input. -/
theorem parse_value_total_cex :
    parse_value "1.2.3 ms" = none ∧
    reMatchNumUnit (stripCommas "1.2.3 ms") = some ("1.2.3", "ms") :=
  ⟨rfl, rfl⟩

/-- When the regex finds no number+unit prefix, `parse_value` falls back
to 0.0 silently. -/
theorem parse_value_nomatch (s : String)
    (hm : reMatchNumUnit (stripCommas s) = none) : parse_value s = some 0 := by
  by_cases h1 : s = ""
  · subst h1; rfl
  by_cases h2 : s = "-"
  · subst h2; rfl
  rw [parse_value, if_neg (by simp [h1, h2]), hm]

/-- Once `float` has produced a number, the unit dispatch of
`parse_value` always yields a value: every branch is `some _`. -/
theorem unitChain_ne_none (us : String) (num : ℚ) :
    (if us = "ns" then some (num / 1000)
     else if us = "μs" || us = "us" then some num
     else if us = "ms" then some (num * 1000)
     else if us = "s" then some (num * 1000000)
     else if us = "B" then some num
     else if us = "KB" then some (num * 1024)
     else if us = "MB" then some (num * 1024 * 1024)
     else some num) ≠ none := by
  intro h
  repeat' first | exact Option.noConfusion h | split at h

/-- C2 (amended): when the leading number+unit pattern does not match the
result is 0.0, and a match with an unrecognized unit yields the bare
parsed number; the only way an exception escapes is a matched numeric
group that is not a valid float (more than one dot, or no digit at all),
where `float(...)` raises `ValueError`. -/
theorem parse_value_amended_totality :
    (∀ s, reMatchNumUnit (stripCommas s) = none → parse_value s = some 0)
    ∧ (∀ s ds us n, reMatchNumUnit (stripCommas s) = some (ds, us) →
        pyFloat ds = some n → us ∉ knownUnits → parse_value s = some n)
    ∧ (∀ s, parse_value s = none →
        ∃ ds us, reMatchNumUnit (stripCommas s) = some (ds, us) ∧ pyFloat ds = none) := by
  refine ⟨parse_value_nomatch, ?_, ?_⟩
  · intro s ds us n hm hf hu
    rw [parse_value_match s ds us hm, hf]
    simp only [knownUnits, List.mem_cons, List.not_mem_nil, or_false, not_or] at hu
    obtain ⟨u1, u2, u3, u4, u5, u6, u7, u8⟩ := hu
    simp [u1, u2, u3, u4, u5, u6, u7, u8]
  · intro s h
    cases hm : reMatchNumUnit (stripCommas s) with
    | none =>
      rw [parse_value_nomatch s hm] at h
      exact Option.noConfusion h
    | some p =>
      obtain ⟨ds, us⟩ := p
      rw [parse_value_match s ds us hm] at h
      cases hf : pyFloat ds with
      | none => exact ⟨ds, us, rfl, hf⟩
      | some num =>
        simp only [hf] at h
        exact absurd h (unitChain_ne_none us num)

/-- Witness for `parse_value_amended_totality`: "12#" has no unit match
(0.0), and "7 xyz" matches with the unrecognized unit "xyz" (bare 7). -/
theorem parse_value_amended_totality_witness :
    parse_value "12#" = some 0 ∧ parse_value "7 xyz" = some ((7 : ℕ) : ℚ) :=
  ⟨parse_value_amended_totality.1 "12#" rfl,
   parse_value_amended_totality.2.1 "7 xyz" "7" "xyz" ((7 : ℕ) : ℚ) rfl rfl (by decide)⟩

/-! ## Table extractor lemmas -/

/-- C3 counterexample: the collection loop `continue`s over blank lines
instead of breaking, so a pipe line after a blank line still contributes
a row.  Here the claim says collection stops at the blank third line, yet
the fourth line "| Alg2 Op2 | 2 us |" produces the second record. -/
theorem collect_blank_cex :
    parseBenchmarkLog "| Method | Mean |\n| Alg Op | 1 us |\n\n| Alg2 Op2 | 2 us |" =
      Except.ok
        [ { cells := [("Method", "Alg Op"), ("Mean", "1 us")]
            rawMethod := "Alg Op", method := "Alg Op"
            algorithm := "Alg", operation := "Op"
            mean_us := some 1, alloc_B := none },
          { cells := [("Method", "Alg2 Op2"), ("Mean", "2 us")]
            rawMethod := "Alg2 Op2", method := "Alg2 Op2"
            algorithm := "Alg2", operation := "Op2"
            mean_us := some 2, alloc_B := none } ] := rfl

/-- C3 (amended): after collection has begun, the loop stops at the first
non-blank line that does not start with a pipe; blank lines are skipped
without stopping collection, so pipe lines beyond a blank line still
contribute rows. -/
theorem collect_stop_conditions :
    (∀ l ls acc, pyStrip l = "" →
        collectTableLines (l :: ls) acc = collectTableLines ls acc)
    ∧ (∀ l ls acc, pyStrip l ≠ "" → (pyStrip l).data.head? ≠ some '|' → acc ≠ [] →
        collectTableLines (l :: ls) acc = acc.reverse) := by
  constructor
  · intro l ls acc hb
    simp [collectTableLines, hb]
  · intro l ls acc hb hp hacc
    simp [collectTableLines, hb, hp, hacc]

/-- Witness for `collect_stop_conditions` on concrete lines. -/
theorem collect_stop_conditions_witness :
    collectTableLines ["   ", "end of table"] ["| a | b |"] = ["| a | b |"] := by
  rw [collect_stop_conditions.1 "   " ["end of table"] ["| a | b |"] rfl]
  exact collect_stop_conditions.2 "end of table" [] ["| a | b |"]
    (by decide) (by decide) (by decide)

/-- C4: the first collected pipe line is the header; every line containing
`---` was excluded during collection; of the remaining lines exactly those
whose field count equals the header's become rows, in order, as
column-name-to-trimmed-cell mappings; and text with no header line yields
an empty result.  The spec's own example (header + dash separator + two
matching rows + one short row) returns exactly the two records. -/
theorem tableExtractor_rows :
    (∀ content, findHeaderTail content = none → parseBenchmarkLog content = Except.ok [])
    ∧ (∀ headers rows, tableData headers rows =
        (rows.filter (fun l => (rowCells l).length = headers.length)).map
          (fun l => dictZip headers (rowCells l)))
    ∧ (∀ ls acc, (∀ a ∈ acc, subStr "---".data a.data = false) →
        ∀ l ∈ collectTableLines ls acc, subStr "---".data l.data = false)
    ∧ parseBenchmarkLog
        "| Method | Mean | Allocated |\n|--------- |------:|----------:|\n| Alg Sign | 1 us | 2 KB |\n| Alg Verify | 2 us | 3 KB |\n| bad | row |"
      = Except.ok
        [ { cells := [("Method", "Alg Sign"), ("Mean", "1 us"), ("Allocated", "2 KB")]
            rawMethod := "Alg Sign", method := "Alg Sign"
            algorithm := "Alg", operation := "Sign"
            mean_us := some 1, alloc_B := some (2 * 1024) },
          { cells := [("Method", "Alg Verify"), ("Mean", "2 us"), ("Allocated", "3 KB")]
            rawMethod := "Alg Verify", method := "Alg Verify"
            algorithm := "Alg", operation := "Verify"
            mean_us := some 2, alloc_B := some (3 * 1024) } ]
    ∧ parseBenchmarkLog "no table in this text" = Except.ok [] := by
  refine ⟨?_, ?_, ?_, rfl, rfl⟩
  · intro content h
    simp only [parseBenchmarkLog, h]
  · intro headers rows
    induction rows with
    | nil => rfl
    | cons l ls ih =>
      by_cases hc : (rowCells l).length = headers.length <;>
        simp [tableData, List.filterMap_cons, List.filter_cons, hc] <;>
        simpa [tableData] using ih
  · intro ls
    induction ls with
    | nil =>
      intro acc hacc l hl
      rw [collectTableLines] at hl
      exact hacc l (List.mem_reverse.mp hl)
    | cons x xs ih =>
      intro acc hacc l hl
      rw [collectTableLines] at hl
      by_cases hb : pyStrip x = ""
      · rw [if_pos hb] at hl
        exact ih acc hacc l hl
      rw [if_neg hb] at hl
      by_cases hp : (pyStrip x).data.head? = some '|'
      · rw [if_pos hp] at hl
        by_cases hsep : subStr "---".data (pyStrip x).data = true
        · rw [if_pos hsep] at hl
          exact ih acc hacc l hl
        · rw [if_neg hsep] at hl
          refine ih (pyStrip x :: acc) ?_ l hl
          intro a ha
          rcases List.mem_cons.mp ha with rfl | ha
          · exact Bool.not_eq_true _ ▸ eq_false_of_ne_true hsep
          · exact hacc a ha
      rw [if_neg hp] at hl
      by_cases he : acc.isEmpty
      · rw [if_pos he] at hl
        exact ih acc hacc l hl
      · rw [if_neg he] at hl
        exact hacc l (List.mem_reverse.mp hl)

/-- Witness for `tableExtractor_rows` on text without a header line. -/
theorem tableExtractor_rows_witness :
    parseBenchmarkLog "just prose, no pipes at all" = Except.ok [] :=
  tableExtractor_rows.1 "just prose, no pipes at all" rfl

/-! ## Benchmark reader lemmas -/

/-- Dropping the non-space prefix of a list containing a space lands on
the space. -/
theorem dropWhile_space_head (l : List Char) (h : ' ' ∈ l) :
    ∃ t, l.dropWhile (fun c => c != ' ') = ' ' :: t := by
  induction l with
  | nil => cases h
  | cons c cs ih =>
    by_cases hc : c = ' '
    · subst hc
      exact ⟨cs, by simp [List.dropWhile]⟩
    · obtain ⟨t, ht⟩ := ih (by
        rcases List.mem_cons.mp h with h1 | h1
        · exact absurd h1.symm hc
        · exact h1)
      have hb : (c != ' ') = true := by simp [bne_iff_ne, hc]
      exact ⟨t, by simp [List.dropWhile, hb, ht]⟩

/-- The non-space prefix contains no space. -/
theorem space_not_mem_takeWhile (l : List Char) :
    ' ' ∉ l.takeWhile (fun c => c != ' ') := by
  intro h
  have := List.mem_takeWhile_imp h
  simp at this

/-- `rsplit(' ', 1)` on a string containing a space: the result
reassembles the string around its last space, and the trailing part is
space-free. -/
theorem rsplitLast_eq (cs : List Char) (h : cs.contains ' ' = true) :
    ∃ b a, rsplitLast cs = some (b, a) ∧ cs = b ++ ' ' :: a ∧ ' ' ∉ a := by
  have hmem : ' ' ∈ cs.reverse := List.mem_reverse.mpr (by simpa using h)
  obtain ⟨t, ht⟩ := dropWhile_space_head cs.reverse hmem
  have hdecomp : cs = ((cs.reverse.dropWhile (fun c => c != ' ')).drop 1).reverse ++
      ' ' :: (cs.reverse.takeWhile (fun c => c != ' ')).reverse := by
    conv_lhs => rw [← cs.reverse_reverse,
      ← List.takeWhile_append_dropWhile (p := fun c => c != ' ') (l := cs.reverse)]
    rw [ht, List.reverse_append, List.reverse_cons, List.drop_succ_cons, List.drop_zero]
    simp
  refine ⟨((cs.reverse.dropWhile (fun c => c != ' ')).drop 1).reverse,
          (cs.reverse.takeWhile (fun c => c != ' ')).reverse, ?_, hdecomp, ?_⟩
  · rw [rsplitLast, if_pos h]
  · intro hsp
    exact space_not_mem_takeWhile cs.reverse (List.mem_reverse.mp hsp)

/-- Inversion of the pandas column phase on success: the records are the
row images under `mkRecord`, every magnitude cell of a present column
parses, and every cleaned method label contains a space. -/
theorem parseRows_ok_inv (headers : List String) (data : List (List (String × String)))
    (recs : List BenchRecord) (h : parseRows headers data = Except.ok recs) :
    recs = data.map (mkRecord (!data.isEmpty && headers.contains "Mean")
                              (!data.isEmpty && headers.contains "Allocated")) ∧
    ((!data.isEmpty && headers.contains "Mean") = true →
       ∀ row ∈ data, (parse_value (cellOf row "Mean")).isSome = true) ∧
    ((!data.isEmpty && headers.contains "Allocated") = true →
       ∀ row ∈ data, (parse_value (cellOf row "Allocated")).isSome = true) ∧
    (∀ row ∈ data, (cleanMethod (cellOf row "Method")).data.contains ' ' = true) := by
  unfold parseRows at h
  split at h
  · exact absurd h (fun hq => Except.noConfusion hq)
  rename_i hc1
  split at h
  · exact absurd h (fun hq => Except.noConfusion hq)
  rename_i hc2
  split at h
  · exact absurd h (fun hq => Except.noConfusion hq)
  rename_i hc3
  split at h
  · exact absurd h (fun hq => Except.noConfusion hq)
  rename_i hc4
  refine ⟨(Except.ok.inj h).symm, ?_, ?_, ?_⟩
  · intro hm row hrow
    have hany : data.any (fun r => (parse_value (cellOf r "Mean")).isNone) = false := by
      cases hq : data.any (fun r => (parse_value (cellOf r "Mean")).isNone) with
      | false => rfl
      | true => exact absurd (by rw [hm, hq]; rfl) hc1
    rw [List.any_eq_false] at hany
    have := hany row hrow
    cases hpv : parse_value (cellOf row "Mean") with
    | none => rw [hpv] at this; exact absurd rfl this
    | some q => rfl
  · intro ha row hrow
    have hany : data.any (fun r => (parse_value (cellOf r "Allocated")).isNone) = false := by
      cases hq : data.any (fun r => (parse_value (cellOf r "Allocated")).isNone) with
      | false => rfl
      | true => exact absurd (by rw [ha, hq]; rfl) hc2
    rw [List.any_eq_false] at hany
    have := hany row hrow
    cases hpv : parse_value (cellOf row "Allocated") with
    | none => rw [hpv] at this; exact absurd rfl this
    | some q => rfl
  · intro row hrow
    have hany : data.any (fun r => !(cleanMethod (cellOf r "Method")).data.contains ' ') = false := by
      cases hq : data.any (fun r => !(cleanMethod (cellOf r "Method")).data.contains ' ') with
      | false => rfl
      | true => exact absurd hq hc4
    rw [List.any_eq_false] at hany
    have := hany row hrow
    cases hcm : (cleanMethod (cellOf row "Method")).data.contains ' ' with
    | false => rw [hcm] at this; exact absurd rfl this
    | true => rfl

/-- Every record a successful run of the benchmark reader produces comes
from a data row through `mkRecord`, with the guards of `parseRows`
established. -/
theorem parseBenchmarkLog_ok_mem (content : String) (recs : List BenchRecord)
    (h : parseBenchmarkLog content = Except.ok recs) (r : BenchRecord) (hr : r ∈ recs) :
    ∃ (hm ha : Bool) (row : List (String × String)),
      r = mkRecord hm ha row ∧
      (hm = true → (parse_value (cellOf row "Mean")).isSome = true) ∧
      (ha = true → (parse_value (cellOf row "Allocated")).isSome = true) ∧
      (cleanMethod (cellOf row "Method")).data.contains ' ' = true := by
  unfold parseBenchmarkLog at h
  cases hht : findHeaderTail content with
  | none =>
    rw [hht] at h
    simp only at h
    rw [← Except.ok.inj h] at hr
    exact absurd hr (List.not_mem_nil r)
  | some tail =>
    rw [hht] at h
    simp only at h
    cases hct : collectTableLines (linesOf tail) [] with
    | nil =>
      rw [hct] at h
      exact absurd h (fun hq => Except.noConfusion hq)
    | cons hl rest =>
      rw [hct] at h
      simp only at h
      obtain ⟨hrecs, hMean, hAlloc, hSpace⟩ := parseRows_ok_inv _ _ _ h
      rw [hrecs] at hr
      obtain ⟨row, hrow, hrmk⟩ := List.mem_map.mp hr
      exact ⟨_, _, row, hrmk.symm, fun hm => hMean hm row hrow,
             fun ha => hAlloc ha row hrow, hSpace row hrow⟩

/-- Projection of `mkRecord`: the stored raw cells. -/
theorem mkRecord_cells (hm ha : Bool) (row : List (String × String)) :
    (mkRecord hm ha row).cells = row := rfl

/-- Projection of `mkRecord`: the raw method cell. -/
theorem mkRecord_rawMethod (hm ha : Bool) (row : List (String × String)) :
    (mkRecord hm ha row).rawMethod = cellOf row "Method" := rfl

/-- Projection of `mkRecord`: the cleaned method label. -/
theorem mkRecord_method (hm ha : Bool) (row : List (String × String)) :
    (mkRecord hm ha row).method = cleanMethod (cellOf row "Method") := rfl

/-- Projection of `mkRecord`: the canonical mean. -/
theorem mkRecord_mean_us (hm ha : Bool) (row : List (String × String)) :
    (mkRecord hm ha row).mean_us =
      if hm = true then some ((parse_value (cellOf row "Mean")).getD 0) else none := rfl

/-- Projection of `mkRecord`: the canonical allocation. -/
theorem mkRecord_alloc_B (hm ha : Bool) (row : List (String × String)) :
    (mkRecord hm ha row).alloc_B =
      if ha = true then some ((parse_value (cellOf row "Allocated")).getD 0) else none := rfl

/-- The float model only produces non-negative values: the regex group
has no sign, so the value is a sum of non-negative casts. -/
theorem pyFloat_nonneg (s : String) (q : ℚ) (h : pyFloat s = some q) : 0 ≤ q := by
  simp only [pyFloat] at h
  split at h
  · split at h
    · cases Option.some.inj h
      positivity
    · cases Option.some.inj h
      positivity
  · exact Option.noConfusion h

/-- Every value the magnitude parser returns is non-negative: the parsed
number is non-negative and every unit factor is positive. -/
theorem parse_value_nonneg (s : String) (q : ℚ) (h : parse_value s = some q) : 0 ≤ q := by
  cases hm : reMatchNumUnit (stripCommas s) with
  | none =>
    rw [parse_value_nomatch s hm] at h
    cases Option.some.inj h
    exact le_refl 0
  | some p =>
    obtain ⟨ds, us⟩ := p
    rw [parse_value_match s ds us hm] at h
    cases hf : pyFloat ds with
    | none =>
      simp only [hf] at h
      exact Option.noConfusion h
    | some num =>
      simp only [hf] at h
      have hnn : 0 ≤ num := pyFloat_nonneg ds num hf
      repeat' split at h
      all_goals cases Option.some.inj h
      all_goals positivity

/-- Empty cells, lone dashes and match failures all come out as 0.0. -/
theorem parse_value_badcell (s : String)
    (h : s = "" ∨ s = "-" ∨ reMatchNumUnit (stripCommas s) = none) :
    parse_value s = some 0 := by
  rcases h with rfl | rfl | hm
  · rfl
  · rfl
  · exact parse_value_nomatch s hm

/-- C10: when the header line is found but no data row is accepted — no
collected line at all, or only the header, or every data row dropped for
a field-count mismatch — the reader raises (the pandas phase reads the
`Method` column of an empty frame; an empty collection already fails at
`table_lines[0]`) instead of returning an empty record set. -/
theorem benchReader_empty_raises :
    ∀ content, findHeaderTail content ≠ none → benchTableData content = [] →
      ∃ e, parseBenchmarkLog content = Except.error e := by
  intro content hh hd
  cases hht : findHeaderTail content with
  | none => exact absurd hht hh
  | some tail =>
    unfold benchTableData at hd
    rw [hht] at hd
    simp only at hd
    cases hct : collectTableLines (linesOf tail) [] with
    | nil =>
      refine ⟨"IndexError: list index out of range", ?_⟩
      unfold parseBenchmarkLog
      rw [hht]
      simp only
      rw [hct]
    | cons hl rest =>
      rw [hct] at hd
      simp only at hd
      refine ⟨"KeyError: Method", ?_⟩
      unfold parseBenchmarkLog
      rw [hht]
      simp only
      rw [hct]
      simp only
      rw [hd]
      simp [parseRows]

/-- Witness for `benchReader_empty_raises`: a header with no data rows. -/
theorem benchReader_empty_raises_witness :
    ∃ e, parseBenchmarkLog "| Method | Mean |\nno data rows here" = Except.error e :=
  benchReader_empty_raises "| Method | Mean |\nno data rows here" (by decide) (by decide)

/-- C5: every produced benchmark record carries the cleaned method label
(text after the last dot, apostrophes removed), and its algorithm and
operation reassemble that label around its last space — the operation is
the space-free final token; in particular the label
"SignatureBenchmarks.RSA-4096 KeyGen" cleans to "RSA-4096 KeyGen" and
splits into algorithm "RSA-4096" and operation "KeyGen". -/
theorem benchReader_method_split :
    (∀ content recs, parseBenchmarkLog content = Except.ok recs → ∀ r ∈ recs,
      r.method = cleanMethod r.rawMethod ∧
      r.method = r.algorithm ++ " " ++ r.operation ∧
      ' ' ∉ r.operation.data)
    ∧ cleanMethod "SignatureBenchmarks.RSA-4096 KeyGen" = "RSA-4096 KeyGen"
    ∧ parseBenchmarkLog "| Method | Mean |\n| SignatureBenchmarks.RSA-4096 KeyGen | 3 ms |"
      = Except.ok
        [ { cells := [("Method", "SignatureBenchmarks.RSA-4096 KeyGen"), ("Mean", "3 ms")]
            rawMethod := "SignatureBenchmarks.RSA-4096 KeyGen"
            method := "RSA-4096 KeyGen"
            algorithm := "RSA-4096", operation := "KeyGen"
            mean_us := some (3 * 1000), alloc_B := none } ] := by
  refine ⟨?_, rfl, rfl⟩
  intro content recs h r hr
  obtain ⟨hm, ha, row, hrmk, _, _, hsp⟩ := parseBenchmarkLog_ok_mem content recs h r hr
  subst hrmk
  obtain ⟨b, a, hsplit, hdec, hna⟩ := rsplitLast_eq (cleanMethod (cellOf row "Method")).data hsp
  refine ⟨rfl, ?_, ?_⟩
  · show cleanMethod (cellOf row "Method") =
      (rsplitLast (cleanMethod (cellOf row "Method")).data).elim
        (cleanMethod (cellOf row "Method")) (fun p => String.mk p.1) ++ " " ++
      (rsplitLast (cleanMethod (cellOf row "Method")).data).elim "" (fun p => String.mk p.2)
    rw [hsplit]
    simp only [Option.elim]
    calc cleanMethod (cellOf row "Method")
        = String.mk ((cleanMethod (cellOf row "Method")).data) := rfl
      _ = String.mk (b ++ ' ' :: a) := by rw [hdec]
      _ = String.mk ((b ++ [' ']) ++ a) := by rw [List.append_cons]
      _ = String.mk b ++ " " ++ String.mk a := rfl
  · show ' ' ∉ ((rsplitLast (cleanMethod (cellOf row "Method")).data).elim ""
        (fun p => String.mk p.2)).data
    rw [hsplit]
    exact hna

/-- Witness for `benchReader_method_split` on a one-row log. -/
theorem benchReader_method_split_witness :
    ("X Y" : String) = "X" ++ " " ++ "Y" ∧ ' ' ∉ ("Y" : String).data := by
  have h := benchReader_method_split.1 "| Method | Mean |\n| X Y | 1 us |"
    [ { cells := [("Method", "X Y"), ("Mean", "1 us")]
        rawMethod := "X Y", method := "X Y"
        algorithm := "X", operation := "Y"
        mean_us := some 1, alloc_B := none } ] rfl
    { cells := [("Method", "X Y"), ("Mean", "1 us")]
      rawMethod := "X Y", method := "X Y"
      algorithm := "X", operation := "Y"
      mean_us := some 1, alloc_B := none }
    (List.mem_singleton.mpr rfl)
  exact ⟨h.2.1, h.2.2⟩

/-- C6: a record is only ever produced from a row whose cleaned method
label contains a space — a spaceless label makes the operation column
assignment raise `IndexError` instead, so the whole read fails; the
concrete log with method cell "KeyGen" raises. -/
theorem benchReader_nospace_raises :
    (∀ content recs, parseBenchmarkLog content = Except.ok recs →
       ∀ r ∈ recs, (cleanMethod r.rawMethod).data.contains ' ' = true)
    ∧ parseBenchmarkLog "| Method | Mean |\n| KeyGen | 1 us |" =
        Except.error "IndexError: list index out of range" := by
  constructor
  · intro content recs h r hr
    obtain ⟨hm, ha, row, hrmk, _, _, hsp⟩ := parseBenchmarkLog_ok_mem content recs h r hr
    rw [hrmk, mkRecord_rawMethod]
    exact hsp
  · rfl

/-- Witness for `benchReader_nospace_raises` on a one-row log. -/
theorem benchReader_nospace_raises_witness :
    (cleanMethod "A B").data.contains ' ' = true :=
  benchReader_nospace_raises.1 "| Method | Mean |\n| A B | 1 us |"
    [ { cells := [("Method", "A B"), ("Mean", "1 us")]
        rawMethod := "A B", method := "A B"
        algorithm := "A", operation := "B"
        mean_us := some 1, alloc_B := none } ] rfl
    { cells := [("Method", "A B"), ("Mean", "1 us")]
      rawMethod := "A B", method := "A B"
      algorithm := "A", operation := "B"
      mean_us := some 1, alloc_B := none }
    (List.mem_singleton.mpr rfl)

/-- C7: in every record the benchmark reader produces, the canonical mean
and allocation are non-negative, and each is zero (or the column is
absent from the table altogether) whenever its cell is empty, a lone
dash, or unmatched by the magnitude regex. -/
theorem benchRecord_magnitudes_nonneg :
    ∀ content recs, parseBenchmarkLog content = Except.ok recs → ∀ r ∈ recs,
      (∀ q, r.mean_us = some q → 0 ≤ q) ∧
      (∀ q, r.alloc_B = some q → 0 ≤ q) ∧
      ((cellOf r.cells "Mean" = "" ∨ cellOf r.cells "Mean" = "-" ∨
          reMatchNumUnit (stripCommas (cellOf r.cells "Mean")) = none) →
        r.mean_us = none ∨ r.mean_us = some 0) ∧
      ((cellOf r.cells "Allocated" = "" ∨ cellOf r.cells "Allocated" = "-" ∨
          reMatchNumUnit (stripCommas (cellOf r.cells "Allocated")) = none) →
        r.alloc_B = none ∨ r.alloc_B = some 0) := by
  intro content recs h r hr
  obtain ⟨hm, ha, row, hrmk, _, _, _⟩ := parseBenchmarkLog_ok_mem content recs h r hr
  subst hrmk
  refine ⟨?_, ?_, ?_, ?_⟩
  · intro q hq
    rw [mkRecord_mean_us] at hq
    cases hm with
    | false => rw [if_neg (by simp)] at hq; exact Option.noConfusion hq
    | true =>
      rw [if_pos rfl] at hq
      cases Option.some.inj hq
      cases hpv : parse_value (cellOf row "Mean") with
      | none => exact le_refl 0
      | some v => simpa using parse_value_nonneg _ v hpv
  · intro q hq
    rw [mkRecord_alloc_B] at hq
    cases ha with
    | false => rw [if_neg (by simp)] at hq; exact Option.noConfusion hq
    | true =>
      rw [if_pos rfl] at hq
      cases Option.some.inj hq
      cases hpv : parse_value (cellOf row "Allocated") with
      | none => exact le_refl 0
      | some v => simpa using parse_value_nonneg _ v hpv
  · intro hbad
    rw [mkRecord_cells] at hbad
    cases hm with
    | false => exact Or.inl (by rw [mkRecord_mean_us, if_neg (by simp)])
    | true =>
      right
      rw [mkRecord_mean_us, if_pos rfl, parse_value_badcell _ hbad]
      rfl
  · intro hbad
    rw [mkRecord_cells] at hbad
    cases ha with
    | false => exact Or.inl (by rw [mkRecord_alloc_B, if_neg (by simp)])
    | true =>
      right
      rw [mkRecord_alloc_B, if_pos rfl, parse_value_badcell _ hbad]
      rfl

/-- Witness for `benchRecord_magnitudes_nonneg` on a record whose `Mean`
cell is a lone dash. -/
theorem benchRecord_magnitudes_nonneg_witness :
    some (0 : ℚ) = none ∨ some (0 : ℚ) = some 0 :=
  (benchRecord_magnitudes_nonneg "| Method | Mean |\n| A B | - |"
    [ { cells := [("Method", "A B"), ("Mean", "-")]
        rawMethod := "A B", method := "A B"
        algorithm := "A", operation := "B"
        mean_us := some 0, alloc_B := none } ] rfl
    { cells := [("Method", "A B"), ("Mean", "-")]
      rawMethod := "A B", method := "A B"
      algorithm := "A", operation := "B"
      mean_us := some 0, alloc_B := none }
    (List.mem_singleton.mpr rfl)).2.2.1 (Or.inr (Or.inl rfl))

/-! ## Artifact reader lemmas -/

/-- A list without the separator splits to itself alone. -/
theorem splitOnChar_of_not_mem (sep : Char) (l : List Char) (h : sep ∉ l) :
    splitOnChar sep l = [l] := by
  induction l with
  | nil => rfl
  | cons c t ih =>
    have hc : ¬(c = sep) := fun hq => h (hq ▸ List.mem_cons_self c t)
    rw [splitOnChar, if_neg hc, ih (fun hq => h (List.mem_cons_of_mem c hq))]

/-- Splitting around a single separator occurrence yields the two
surrounding parts. -/
theorem splitOnChar_sep_append (sep : Char) (k v : List Char)
    (hk : sep ∉ k) (hv : sep ∉ v) :
    splitOnChar sep (k ++ sep :: v) = [k, v] := by
  induction k with
  | nil =>
    rw [List.nil_append, splitOnChar, if_pos rfl, splitOnChar_of_not_mem sep v hv]
  | cons c t ih =>
    have hc : ¬(c = sep) := fun hq => hk (hq ▸ List.mem_cons_self c t)
    have ht := ih (fun hq => hk (List.mem_cons_of_mem c hq))
    rw [List.cons_append, splitOnChar, if_neg hc, ht]

/-- C8 counterexample: a colon-bearing segment with a second colon makes
`k, v = p.split(':')` raise `ValueError` (three pieces cannot unpack into
two names), so the line produces no records at all, where the claim
promises the record ("A", "K", 1). -/
theorem artifact_multicolon_cex :
    parseArtifactLine "A | K: 1:2 B" = Except.error "ValueError: too many values to unpack" ∧
    ∀ rs, parseArtifactLine "A | K: 1:2 B" ≠ Except.ok rs := by
  refine ⟨rfl, fun rs hq => ?_⟩
  rw [show parseArtifactLine "A | K: 1:2 B" =
      Except.error "ValueError: too many values to unpack" from rfl] at hq
  exact Except.noConfusion hq

/-- C8 (amended): blank or dash-prefixed lines produce nothing; bracketed
tags are removed before parsing; a segment without a colon is skipped; a
segment with exactly one colon produces a record exactly when its value
part holds a digit run, taking the first digit run as the size and
normalizing the label by the case-sensitive substring chain Pub / Priv /
Sig / Cipher; a segment with more than one colon raises `ValueError`
instead of producing its record; the spec's example line yields exactly
(Dilithium2, Public Key, 1312) and (Dilithium2, Private Key, 2528). -/
theorem artifact_reader_amended :
    (∀ line, pyStrip line = "" ∨ line.data.head? = some '-' →
       parseArtifactLine line = Except.ok [])
    ∧ (∀ algo p, p.data.contains ':' = false → processSegment algo p = Except.ok [])
    ∧ (∀ algo k v, ':' ∉ k.data → ':' ∉ v.data →
        processSegment algo (k ++ ":" ++ v) =
          (match firstDigitRun v.data with
           | none => Except.ok []
           | some ds => Except.ok [{ algorithm := algo
                                     type := normType (pyStrip k)
                                     size := digitsToNat ds }]))
    ∧ (∀ t, subStr "Pub".data t.data = true → normType t = "Public Key")
    ∧ (∀ t, subStr "Pub".data t.data = false → subStr "Priv".data t.data = true →
        normType t = "Private Key")
    ∧ (∀ t, subStr "Pub".data t.data = false → subStr "Priv".data t.data = false →
        subStr "Sig".data t.data = true → normType t = "Signature")
    ∧ (∀ t, subStr "Pub".data t.data = false → subStr "Priv".data t.data = false →
        subStr "Sig".data t.data = false → subStr "Cipher".data t.data = true →
        normType t = "Ciphertext")
    ∧ (∀ t, subStr "Pub".data t.data = false → subStr "Priv".data t.data = false →
        subStr "Sig".data t.data = false → subStr "Cipher".data t.data = false →
        normType t = t)
    ∧ processSegment "A" " K: 1:2 B" = Except.error "ValueError: too many values to unpack"
    ∧ parseArtifactLine "Dilithium2 | PubKey: 1312 B | PrivKey: 2528 B" =
        Except.ok [ { algorithm := "Dilithium2", type := "Public Key", size := 1312 },
                    { algorithm := "Dilithium2", type := "Private Key", size := 2528 } ]
    ∧ parseArtifactLine "[Sec3] Dilithium2 | PubKey: 1312 B | PrivKey: 2528 B" =
        Except.ok [ { algorithm := "Dilithium2", type := "Public Key", size := 1312 },
                    { algorithm := "Dilithium2", type := "Private Key", size := 2528 } ] := by
  refine ⟨?_, ?_, ?_, ?_, ?_, ?_, ?_, ?_, rfl, rfl, rfl⟩
  · intro line h
    rcases h with h | h
    · rw [parseArtifactLine, if_pos (by simp [h])]
    · rw [parseArtifactLine, if_pos (by simp [h])]
  · intro algo p h
    rw [processSegment, if_pos (show (!p.data.contains ':') = true by rw [h]; rfl)]
  · intro algo k v hk hv
    have hpd : (k ++ ":" ++ v).data = k.data ++ ':' :: v.data := by
      rw [show (k ++ ":" ++ v).data = (k.data ++ [':']) ++ v.data from rfl]
      simp
    rw [processSegment, hpd, if_neg (by simp), splitOnChar_sep_append ':' k.data v.data hk hv]
  · intro t h
    rw [normType, if_pos (by simp [h])]
  · intro t h1 h2
    rw [normType, if_neg (by simp [h1]), if_pos (by simp [h2])]
  · intro t h1 h2 h3
    rw [normType, if_neg (by simp [h1]), if_neg (by simp [h2]), if_pos (by simp [h3])]
  · intro t h1 h2 h3 h4
    rw [normType, if_neg (by simp [h1]), if_neg (by simp [h2]), if_neg (by simp [h3]),
        if_pos (by simp [h4])]
  · intro t h1 h2 h3 h4
    rw [normType, if_neg (by simp [h1]), if_neg (by simp [h2]), if_neg (by simp [h3]),
        if_neg (by simp [h4])]

/-- Witness for `artifact_reader_amended` on concrete segments. -/
theorem artifact_reader_amended_witness :
    processSegment "Alg" "no colon here" = Except.ok [] ∧
    processSegment "Alg" ("Sig" ++ ":" ++ " 2420 B") =
      (match firstDigitRun " 2420 B".data with
       | none => Except.ok []
       | some ds => Except.ok [{ algorithm := "Alg"
                                 type := normType (pyStrip "Sig")
                                 size := digitsToNat ds }]) :=
  ⟨artifact_reader_amended.2.1 "Alg" "no colon here" rfl,
   artifact_reader_amended.2.2.1 "Alg" "Sig" " 2420 B" (by decide) (by decide)⟩

/-! ## Orchestrator lemmas -/

/-- C9 counterexample: with both benchmark sets non-empty but the
signature table lacking an `Allocated` column (as a `| Method | Mean |`
log produces: every record's allocation value is absent), the claim
promises the full four-chart schedule, but the run ends after the first
three charts with `KeyError` at `df_sig['Allocated_B']` — partial
output, no signature memory chart. -/
theorem mainCharts_partial_cex :
    mainCharts
      [ { cells := [("Method", "A B"), ("Mean", "1 us"), ("Allocated", "2 KB")]
          rawMethod := "A B", method := "A B"
          algorithm := "A", operation := "B"
          mean_us := some 1, alloc_B := some (2 * 1024) } ]
      [ { cells := [("Method", "C D"), ("Mean", "1 us")]
          rawMethod := "C D", method := "C D"
          algorithm := "C", operation := "D"
          mean_us := some 1, alloc_B := none } ]
      []
    = ([ { filename := "kem_execution_time.png"
           benchData := [ { cells := [("Method", "A B"), ("Mean", "1 us"), ("Allocated", "2 KB")]
                            rawMethod := "A B", method := "A B"
                            algorithm := "A", operation := "B"
                            mean_us := some 1, alloc_B := some (2 * 1024) } ]
           artData := [], logScale := true, showMtu := false },
         { filename := "kem_memory.png"
           benchData := [ { cells := [("Method", "A B"), ("Mean", "1 us"), ("Allocated", "2 KB")]
                            rawMethod := "A B", method := "A B"
                            algorithm := "A", operation := "B"
                            mean_us := some 1, alloc_B := some (2 * 1024) } ]
           artData := [], logScale := false, showMtu := false },
         { filename := "sig_execution_time.png"
           benchData := [ { cells := [("Method", "C D"), ("Mean", "1 us")]
                            rawMethod := "C D", method := "C D"
                            algorithm := "C", operation := "D"
                            mean_us := some 1, alloc_B := none } ]
           artData := [], logScale := true, showMtu := false } ],
       some "KeyError: Allocated_B") := rfl

/-- C9 (amended): with either benchmark record set empty, `main` prints
its error and stops with no chart rendered; otherwise it renders in
order the KEM time chart (log scale), the KEM memory chart and the
signature time chart (log scale); if the signature table lacks an
`Allocated` column (its records carry no allocation value), the
`Allocated_B` lookup then raises `KeyError`, ending the run after those
three charts; otherwise the signature memory chart restricted to records
with allocated bytes strictly above 10 follows, and — only when artifact
data is present — the artifact chart (log scale, with the 1500-byte MTU
line). -/
theorem mainCharts_schedule :
    ∀ (kem sig : List BenchRecord) (art : List ArtRecord),
      (kem = [] ∨ sig = [] → mainCharts kem sig art = ([], some mainAbortMsg))
      ∧ (kem ≠ [] → sig ≠ [] → sig.any (fun r => r.alloc_B.isNone) = true →
          mainCharts kem sig art =
            ([ { filename := "kem_execution_time.png", benchData := kem, artData := [],
                 logScale := true, showMtu := false },
               { filename := "kem_memory.png", benchData := kem, artData := [],
                 logScale := false, showMtu := false },
               { filename := "sig_execution_time.png", benchData := sig, artData := [],
                 logScale := true, showMtu := false } ],
             some "KeyError: Allocated_B"))
      ∧ (kem ≠ [] → sig ≠ [] → sig.any (fun r => r.alloc_B.isNone) = false → art = [] →
          mainCharts kem sig art =
            ([ { filename := "kem_execution_time.png", benchData := kem, artData := [],
                 logScale := true, showMtu := false },
               { filename := "kem_memory.png", benchData := kem, artData := [],
                 logScale := false, showMtu := false },
               { filename := "sig_execution_time.png", benchData := sig, artData := [],
                 logScale := true, showMtu := false },
               { filename := "sig_memory.png",
                 benchData := sig.filter (fun r => (10 : ℚ) < r.alloc_B.getD 0),
                 artData := [], logScale := false, showMtu := false } ],
             none))
      ∧ (kem ≠ [] → sig ≠ [] → sig.any (fun r => r.alloc_B.isNone) = false → art ≠ [] →
          mainCharts kem sig art =
            ([ { filename := "kem_execution_time.png", benchData := kem, artData := [],
                 logScale := true, showMtu := false },
               { filename := "kem_memory.png", benchData := kem, artData := [],
                 logScale := false, showMtu := false },
               { filename := "sig_execution_time.png", benchData := sig, artData := [],
                 logScale := true, showMtu := false },
               { filename := "sig_memory.png",
                 benchData := sig.filter (fun r => (10 : ℚ) < r.alloc_B.getD 0),
                 artData := [], logScale := false, showMtu := false },
               { filename := "artifact_sizes.png", benchData := [], artData := art,
                 logScale := true, showMtu := true } ],
             none)) := by
  intro kem sig art
  refine ⟨?_, ?_, ?_, ?_⟩
  · intro h
    rcases h with rfl | rfl
    · simp [mainCharts]
    · simp [mainCharts]
  · intro hk hs hna
    simp [mainCharts, hk, hs, hna]
  · intro hk hs hna ha
    subst ha
    simp [mainCharts, hk, hs, hna]
  · intro hk hs hna ha
    simp [mainCharts, hk, hs, hna, ha]

/-- Witness for `mainCharts_schedule` with an empty KEM set. -/
theorem mainCharts_schedule_witness :
    mainCharts [] [] [] = ([], some mainAbortMsg) :=
  (mainCharts_schedule [] [] []).1 (Or.inl rfl)
